import Mathlib

/-!
Shallow embedding of QMS (QuickMonitorSwitcher), `src/qms.py`.

The program is a Qt tray application.  We embed the state of the `QMS`
object together with the settings file, and model the externally visible
side effects of `toggle_secondary_monitors` (calls into
`run_display_switch` and `toggle_monitors` from `monitor_manager`) as an
emitted command list.  `generate_monitors()` is an external query; every
operation that calls it takes the scan result as an explicit argument.
UI-only effects (tray icon repaint, menu rebuild, widget geometry) carry
no program state and are not modelled.
-/

namespace QMSpy

/-- A monitor as produced by `generate_monitors()`: a tuple of which the
program reads index 1 (the name, `monitor[1]`), index 2 (`monitor[2]`,
compared against `"Yes"` in `get_active_monitors`) and index 3
(`monitor[3]`, compared against `"No"` in `create_monitor_checkboxes`
and `get_active_monitors`).  Index 0 is never read and is omitted. -/
structure Monitor where
  name : String
  field2 : String
  field3 : String
deriving DecidableEq

/-- JSON values, as far as this program produces or consumes them
(`json.dump` / `json.load` of the settings document). -/
inductive Json where
  | str (s : String)
  | arr (xs : List Json)
  | obj (kvs : List (String × Json))

/-- Content of the settings file on disk: either bytes that parse as the
JSON value `j`, or bytes that are not valid JSON. -/
inductive FileContent where
  | json (j : Json)
  | malformed

/-- Python exceptions that can escape the modelled code paths. -/
inductive PyErr where
  | jsonDecodeError
  | stopIteration
  | attributeError
deriving DecidableEq

/-- The mutable state of the `QMS` object that the modelled methods read
or write.  `monitor_checkboxes` is the Python dict
`self.monitor_checkboxes` (insertion-ordered, unique keys), with each
checkbox reduced to its checked flag. -/
structure QMSState where
  no_ddcci : Bool
  monitors : List Monitor
  monitor_checkboxes : List (String × Bool)
  settings : Json
  first_run : Bool
  secondary_monitors_enabled : Bool

/-- Python dict assignment `d[k] = v`: update in place if the key
exists (keeping its position), else append. -/
def dictInsert (kvs : List (String × Bool)) (k : String) (v : Bool) :
    List (String × Bool) :=
  if kvs.any (fun p => p.1 == k) then
    kvs.map (fun p => if p.1 == k then (p.1, v) else p)
  else kvs ++ [(k, v)]

/-- `QMS.create_monitor_checkboxes` (lines 60-78): rescans the monitors
and rebuilds `self.monitor_checkboxes` from scratch, one fresh (hence
unchecked) checkbox per monitor with `monitor[3] == "No"`, keyed by
`monitor[1]`.  `scan` is the result of the `generate_monitors()` call on
line 62. -/
def create_monitor_checkboxes (s : QMSState) (scan : List Monitor) : QMSState :=
  { s with
    monitors := scan
    monitor_checkboxes :=
      (scan.filter (fun m => m.field3 == "No")).foldl
        (fun cbs m => dictInsert cbs m.name false) [] }

/-- `QMS.get_active_monitors` (lines 145-147). -/
def get_active_monitors (monitors : List Monitor) : Bool :=
  decide (0 < monitors.countP (fun m => m.field2 == "Yes" && m.field3 == "No"))

/-- The document `save_settings` builds from the checkbox dict
(lines 81-85). -/
def settingsDoc (cbs : List (String × Bool)) : Json :=
  Json.obj [("secondary_monitors",
    Json.arr ((cbs.filter (fun p => p.2)).map (fun p => Json.str p.1)))]

/-- `QMS.save_settings` (lines 80-88): rebuilds `self.settings` from the
checked checkboxes and writes it to the settings file, replacing the
previous file content.  Returns the new object state and the new file
content. -/
def save_settings (s : QMSState) : QMSState × FileContent :=
  let doc := settingsDoc s.monitor_checkboxes
  ({ s with settings := doc }, FileContent.json doc)

/-- `json.load` on the settings file: the parsed value, or the
`json.JSONDecodeError` the call raises on invalid JSON. -/
def json_load : FileContent → Except PyErr Json
  | FileContent.json j => Except.ok j
  | FileContent.malformed => Except.error PyErr.jsonDecodeError

/-- Python `d.get(k, default)`: defined on dicts; on a non-dict value
(list or string) the attribute lookup raises `AttributeError`. -/
def dictGet (j : Json) (k : String) (dflt : Json) : Except PyErr Json :=
  match j with
  | Json.obj kvs => Except.ok (((kvs.find? (fun p => p.1 == k)).map Prod.snd).getD dflt)
  | _ => Except.error PyErr.attributeError

/-- Bool test used by Python `in` on a list element: `element == name`
is true only when the element is that very string. -/
def jsonEqStr (j : Json) (s : String) : Bool :=
  match j with
  | Json.str t => t == s
  | _ => false

/-- `needle` occurs as a contiguous sublist of `hay`. -/
def pySubstr (needle : List Char) : List Char → Bool
  | [] => needle.isEmpty
  | c :: t => needle.isPrefixOf (c :: t) || pySubstr needle t

/-- Python `name in v` for the shapes of `v` this program can meet:
membership for a list, substring test for a string, key test for a
dict. -/
def pyIn (name : String) : Json → Bool
  | Json.arr xs => xs.any (fun j => jsonEqStr j name)
  | Json.str t => pySubstr name.toList t.toList
  | Json.obj kvs => kvs.any (fun p => p.1 == name)

/-- Current checked flag of the checkbox keyed `k`, if any. -/
def lookupCheckbox (cbs : List (String × Bool)) (k : String) : Option Bool :=
  (cbs.find? (fun p => p.1 == k)).map Prod.snd

/-- Write `b` into the checkbox keyed `k`. -/
def setCheckedValue (cbs : List (String × Bool)) (k : String) (b : Bool) :
    List (String × Bool) :=
  cbs.map (fun p => if p.1 == k then (p.1, b) else p)

/-- Qt `checkbox.setChecked(b)`: if the stored value changes, the
`stateChanged` signal fires synchronously and runs the connected slot
`self.save_settings` (connected on line 68), which rewrites the settings
file from the current checkbox states.  No change, no signal. -/
def checkbox_setChecked (s : QMSState) (file : Option FileContent)
    (k : String) (b : Bool) : QMSState × Option FileContent :=
  match lookupCheckbox s.monitor_checkboxes k with
  | none => (s, file)
  | some b0 =>
    if b0 == b then (s, file)
    else
      let s1 := { s with monitor_checkboxes := setCheckedValue s.monitor_checkboxes k b }
      let (s2, fc) := save_settings s1
      (s2, some fc)

/-- The `for monitor, checkbox in self.monitor_checkboxes.items()` loop
of `load_settings` (lines 96-99).  Each iteration re-reads
`self.settings` (which a `save_settings` fired by a previous
`setChecked` may have replaced); an `AttributeError` from `.get` on a
non-dict `self.settings` is caught by the surrounding `try`, abandoning
the rest of the loop (`pass`). -/
def apply_settings_loop :
    QMSState → Option FileContent → List String → QMSState × Option FileContent
  | s, file, [] => (s, file)
  | s, file, k :: rest =>
    match dictGet s.settings "secondary_monitors" (Json.arr []) with
    | Except.error _ => (s, file)
    | Except.ok v =>
      let p := checkbox_setChecked s file k (pyIn k v)
      apply_settings_loop p.1 p.2 rest

/-- `QMS.load_settings` (lines 90-102).  If the file is absent, only
`self.first_run` is set.  If present, `json.load` runs (raising
uncaught on malformed content), `self.settings` is replaced, and each
checkbox is set from membership in
`self.settings.get("secondary_monitors", [])`. -/
def load_settings (s : QMSState) (file : Option FileContent) :
    Except PyErr (QMSState × Option FileContent) :=
  match file with
  | none => Except.ok ({ s with first_run := true }, none)
  | some fc =>
    match json_load fc with
    | Except.error e => Except.error e
    | Except.ok j =>
      let s1 := { s with settings := j }
      Except.ok (apply_settings_loop s1 (some fc) (s1.monitor_checkboxes.map Prod.fst))

/-- `QMS.__init__` (lines 22-35), keeping the statements that touch
modelled state, in source order: `self.monitors = generate_monitors()`;
`init_ui` (which runs `create_monitor_checkboxes` unless `no_ddcci`,
itself calling `generate_monitors()` again — the registry is queried
twice with no intervening OS change, so both calls receive `scan`);
`self.settings = {}`; `self.first_run = False`;
`self.secondary_monitors_enabled = self.get_active_monitors()`;
`self.load_settings()`.  An exception from `load_settings` propagates
out of the constructor. -/
def QMS_init (no_ddcci : Bool) (scan : List Monitor) (file : Option FileContent) :
    Except PyErr (QMSState × Option FileContent) :=
  let s0 : QMSState :=
    { no_ddcci := no_ddcci
      monitors := scan
      monitor_checkboxes := []
      settings := Json.obj []
      first_run := false
      secondary_monitors_enabled := false }
  let s1 := if no_ddcci then s0 else create_monitor_checkboxes s0 scan
  let s2 := { s1 with
              settings := Json.obj []
              first_run := false
              secondary_monitors_enabled := get_active_monitors s1.monitors }
  load_settings s2 file

/-- `__main__` with no flags (lines 218-220): construct the window, then
show it exactly when `first_run`.  The result is whether the main window
is shown at startup. -/
def main_window_shown (no_ddcci : Bool) (scan : List Monitor)
    (file : Option FileContent) : Except PyErr Bool :=
  match QMS_init no_ddcci scan file with
  | Except.error e => Except.error e
  | Except.ok p => Except.ok p.1.first_run

/-- Calls `toggle_secondary_monitors` makes into `monitor_manager`, in
program order. -/
inductive Cmd where
  | run_display_switch (arg : String)
  | toggle_monitors (names : List String) (enable : Bool)
deriving DecidableEq

/-- The per-checkbox loop of `toggle_secondary_monitors` (lines
152-159): for each checked checkbox, `next(...)` finds the first index
of a monitor whose `monitor[1]` equals the checkbox key (raising
`StopIteration` when there is none, which aborts the method; commands
already issued stand), then `toggle_monitors([name], enable)` runs with
`enable` the negation of the current toggle state.  Returns the issued
commands and the exception, if one was raised. -/
def toggle_loop (monitors : List Monitor) (enabled : Bool) :
    List (String × Bool) → List Cmd × Option PyErr
  | [] => ([], none)
  | (name, checked) :: rest =>
    if checked then
      match monitors.find? (fun mon => mon.name == name) with
      | none => ([], some PyErr.stopIteration)
      | some mon =>
        let r := toggle_loop monitors enabled rest
        (Cmd.toggle_monitors [mon.name] (!enabled) :: r.1, r.2)
    else toggle_loop monitors enabled rest

/-- `QMS.toggle_secondary_monitors` (lines 149-167).  Emits
`run_display_switch("/extend")` first when currently disabled; runs the
per-checkbox loop unless `no_ddcci`; emits
`run_display_switch("/internal")` after the loop when currently
enabled; negates `self.secondary_monitors_enabled`; finally reruns
`create_monitor_checkboxes` (unless `no_ddcci`) with `rescan`, the
result of the `generate_monitors()` call made there.  Returns the commands
issued in order, and the final object state or the escaped
exception. -/
def toggle_secondary_monitors (s : QMSState) (rescan : List Monitor) :
    List Cmd × Except PyErr QMSState :=
  let pre : List Cmd :=
    if !s.secondary_monitors_enabled then [Cmd.run_display_switch "/extend"] else []
  let loopRes :=
    if !s.no_ddcci then
      toggle_loop s.monitors s.secondary_monitors_enabled s.monitor_checkboxes
    else ([], none)
  match loopRes.2 with
  | some e => (pre ++ loopRes.1, Except.error e)
  | none =>
    let post : List Cmd :=
      if s.secondary_monitors_enabled then [Cmd.run_display_switch "/internal"] else []
    let s1 := { s with secondary_monitors_enabled := !s.secondary_monitors_enabled }
    let s2 := if !s1.no_ddcci then create_monitor_checkboxes s1 rescan else s1
    (pre ++ loopRes.1 ++ post, Except.ok s2)

/-- User-visible events on the settings UI: clicking the checkbox keyed
`name` (which toggles it, firing `stateChanged` and hence
`save_settings`), and pressing the rescan button, whose `clicked`
signal is connected to `create_monitor_checkboxes` (line 46). -/
inductive UiEvent where
  | click (name : String)
  | rescanClick (scan : List Monitor)

/-- One UI event against the object state and the settings file. -/
def step (p : QMSState × Option FileContent) (ev : UiEvent) :
    QMSState × Option FileContent :=
  match ev with
  | UiEvent.click k =>
    match lookupCheckbox p.1.monitor_checkboxes k with
    | none => p
    | some b0 => checkbox_setChecked p.1 p.2 k (!b0)
  | UiEvent.rescanClick scan => (create_monitor_checkboxes p.1 scan, p.2)

/-- A sequence of UI events. -/
def run (p : QMSState × Option FileContent) (evs : List UiEvent) :
    QMSState × Option FileContent :=
  evs.foldl step p

/-- Observable effect of the `monitor_manager` calls: the last
display-switch mode requested, and the power flag of each monitor as driven
by `toggle_monitors`. -/
structure DisplayState where
  mode : String
  power : List (String × Bool)
deriving DecidableEq

/-- Set the power flag of every listed monitor. -/
def setPower (power : List (String × Bool)) (names : List String) (b : Bool) :
    List (String × Bool) :=
  power.map (fun p => if names.contains p.1 then (p.1, b) else p)

/-- Interpret one command. -/
def applyCmd (d : DisplayState) : Cmd → DisplayState
  | Cmd.run_display_switch arg => { d with mode := arg }
  | Cmd.toggle_monitors names b => { d with power := setPower d.power names b }

/-- Interpret a command sequence. -/
def applyCmds (d : DisplayState) (cmds : List Cmd) : DisplayState :=
  cmds.foldl applyCmd d

/-- Names the settings file currently stores under
`"secondary_monitors"` (empty for anything other than a well-formed
document). -/
def secondaryNamesOf : Json → List String
  | Json.obj kvs =>
    match ((kvs.find? (fun p => p.1 == "secondary_monitors")).map Prod.snd) with
    | some (Json.arr xs) =>
      xs.filterMap (fun j => match j with | Json.str t => some t | _ => none)
    | _ => []
  | _ => []

/-- Names persisted on disk. -/
def persistedNames : Option FileContent → List String
  | some (FileContent.json j) => secondaryNamesOf j
  | _ => []

/-- Names of the monitors of a scan that get a checkbox
(`monitor[3] == "No"`). -/
def eligibleNames (monitors : List Monitor) : List String :=
  (monitors.filter (fun m => m.field3 == "No")).map Monitor.name

/-- Keys of the checkbox dict. -/
def keyset (cbs : List (String × Bool)) : List String :=
  cbs.map Prod.fst

/-- Names of the checked checkboxes, in dict order. -/
def checkedNames (cbs : List (String × Bool)) : List String :=
  (cbs.filter (fun p => p.2)).map Prod.fst

/-! Concrete fixtures used by the example-level theorems. -/

/-- An active, checkbox-eligible monitor named `A`. -/
def mA : Monitor := ⟨"A", "Yes", "No"⟩

/-- An active, checkbox-eligible monitor named `B`. -/
def mB : Monitor := ⟨"B", "Yes", "No"⟩

/-- Mode the OS display composition is in while the toggle state is
`enabled`: extended desktop when secondary monitors are on, internal
only when they are off. -/
def switchModeFor (enabled : Bool) : String :=
  if enabled then "/extend" else "/internal"

/-- State used by the C2 counterexample: monitor `A` present, its
checkbox checked, secondary monitors currently disabled. -/
def c2S : QMSState := ⟨false, [mA], [("A", true)], Json.obj [], false, false⟩

/-- The object state `toggle_secondary_monitors` leaves behind when
called on `c2S`: the flag flipped, and the rebuilt checkbox list with
`A` unchecked. -/
def c2S1 : QMSState := ⟨false, [mA], [("A", false)], Json.obj [], false, true⟩

/-- Initial display condition matching `c2S`: internal-only mode,
monitor `A` off. -/
def c2D0 : DisplayState := ⟨"/internal", [("A", false)]⟩

/-- State used by the C7 counterexample: an active eligible monitor,
no checkboxes, secondary monitors flagged enabled. -/
def c7S : QMSState := ⟨false, [mA], [], Json.obj [], false, true⟩

/-- State after toggling `c7S` (with the rescan still reporting `A`):
flag false, checkbox list rebuilt. -/
def c7S1 : QMSState := ⟨false, [mA], [("A", false)], Json.obj [], false, false⟩

/-- State used by the C8 counterexample: monitor `A` present and its
checkbox checked, the same selection stored in `settings`. -/
def c8S : QMSState :=
  ⟨false, [mA], [("A", true)],
    Json.obj [("secondary_monitors", Json.arr [Json.str "A"])], false, true⟩

/-- State for the C9/C10 scenario: monitors `Monitor1` and `Other`,
both checkboxes unchecked. -/
def c9S : QMSState :=
  ⟨false, [⟨"Monitor1", "Yes", "No"⟩, ⟨"Other", "Yes", "No"⟩],
    [("Monitor1", false), ("Other", false)], Json.obj [], false, true⟩

/-- A prior settings file carrying an extra top-level key `theme`. -/
def c10File : Option FileContent :=
  some (FileContent.json (Json.obj
    [("secondary_monitors", Json.arr []), ("theme", Json.str "dark")]))

/-- The selection-side invariant: every checkbox key names an eligible
monitor of the current monitor list. -/
def selectionInv (s : QMSState) : Prop :=
  ∀ n ∈ keyset s.monitor_checkboxes, n ∈ eligibleNames s.monitors

/-- Fixture: the state `QMS.__init__` produces with scan `[A]` and no
settings file. -/
def c3S0 : QMSState := ⟨false, [mA], [("A", false)], Json.obj [], true, true⟩

/-! ### Helper lemmas -/

theorem keyset_setCheckedValue (cbs : List (String × Bool)) (k : String) (b : Bool) :
    keyset (setCheckedValue cbs k b) = keyset cbs := by
  induction cbs with
  | nil => rfl
  | cons p t ih =>
    simp only [setCheckedValue, keyset, List.map_cons] at ih ⊢
    have h1 : (if (p.1 == k) = true then (p.1, b) else p).1 = p.1 := by
      split <;> rfl
    rw [ih, h1]

theorem checkbox_setChecked_pres (s : QMSState) (file : Option FileContent)
    (k : String) (b : Bool) :
    (checkbox_setChecked s file k b).1.no_ddcci = s.no_ddcci ∧
    (checkbox_setChecked s file k b).1.monitors = s.monitors ∧
    (checkbox_setChecked s file k b).1.first_run = s.first_run ∧
    (checkbox_setChecked s file k b).1.secondary_monitors_enabled
      = s.secondary_monitors_enabled ∧
    keyset (checkbox_setChecked s file k b).1.monitor_checkboxes
      = keyset s.monitor_checkboxes := by
  unfold checkbox_setChecked
  cases h : lookupCheckbox s.monitor_checkboxes k with
  | none => exact ⟨rfl, rfl, rfl, rfl, rfl⟩
  | some b0 =>
    by_cases hb : (b0 == b) = true
    · simp only [hb]
      exact ⟨rfl, rfl, rfl, rfl, rfl⟩
    · simp only [Bool.not_eq_true] at hb
      simp only [hb, save_settings]
      exact ⟨rfl, rfl, rfl, rfl, keyset_setCheckedValue _ _ _⟩

theorem apply_settings_loop_pres (ks : List String) (s : QMSState)
    (file : Option FileContent) :
    (apply_settings_loop s file ks).1.no_ddcci = s.no_ddcci ∧
    (apply_settings_loop s file ks).1.monitors = s.monitors ∧
    (apply_settings_loop s file ks).1.secondary_monitors_enabled
      = s.secondary_monitors_enabled ∧
    keyset (apply_settings_loop s file ks).1.monitor_checkboxes
      = keyset s.monitor_checkboxes := by
  induction ks generalizing s file with
  | nil => exact ⟨rfl, rfl, rfl, rfl⟩
  | cons k rest ih =>
    unfold apply_settings_loop
    cases hg : dictGet s.settings "secondary_monitors" (Json.arr []) with
    | error e => exact ⟨rfl, rfl, rfl, rfl⟩
    | ok v =>
      have hset := checkbox_setChecked_pres s file k (pyIn k v)
      have hrec := ih (checkbox_setChecked s file k (pyIn k v)).1
        (checkbox_setChecked s file k (pyIn k v)).2
      exact ⟨hrec.1.trans hset.1, hrec.2.1.trans hset.2.1,
        hrec.2.2.1.trans hset.2.2.2.1, hrec.2.2.2.trans hset.2.2.2.2⟩

theorem load_settings_pres (s : QMSState) (file : Option FileContent)
    (p : QMSState × Option FileContent) (h : load_settings s file = Except.ok p) :
    p.1.no_ddcci = s.no_ddcci ∧
    p.1.monitors = s.monitors ∧
    p.1.secondary_monitors_enabled = s.secondary_monitors_enabled ∧
    keyset p.1.monitor_checkboxes = keyset s.monitor_checkboxes := by
  unfold load_settings at h
  cases file with
  | none =>
    simp only [Except.ok.injEq] at h
    subst h
    exact ⟨rfl, rfl, rfl, rfl⟩
  | some fc =>
    cases fc with
    | malformed => exact absurd h (by simp [json_load])
    | json j =>
      simp only [json_load, Except.ok.injEq] at h
      subst h
      exact apply_settings_loop_pres _ _ _

theorem mem_keyset_dictInsert (cbs : List (String × Bool)) (k : String) (v : Bool)
    (n : String) : n ∈ keyset (dictInsert cbs k v) ↔ n ∈ keyset cbs ∨ n = k := by
  unfold dictInsert
  by_cases h : cbs.any (fun p => p.1 == k) = true
  · simp only [h, if_true]
    have hkeys : keyset (cbs.map (fun p => if p.1 == k then (p.1, v) else p))
        = keyset cbs := keyset_setCheckedValue cbs k v
    rw [hkeys]
    constructor
    · exact Or.inl
    · rintro (hn | rfl)
      · exact hn
      · rcases List.any_eq_true.mp h with ⟨p, hp, hpk⟩
        have : p.1 = n := by exact (beq_iff_eq.mp hpk).symm ▸ rfl
        exact this ▸ List.mem_map_of_mem Prod.fst hp
  · simp only [h, if_false]
    simp [keyset]

theorem mem_keyset_create (s : QMSState) (scan : List Monitor) (n : String) :
    n ∈ keyset (create_monitor_checkboxes s scan).monitor_checkboxes
      ↔ n ∈ eligibleNames scan := by
  unfold create_monitor_checkboxes eligibleNames
  show n ∈ keyset ((scan.filter (fun m => m.field3 == "No")).foldl
      (fun cbs m => dictInsert cbs m.name false) []) ↔ _
  have key : ∀ (l : List Monitor) (acc : List (String × Bool)),
      n ∈ keyset (l.foldl (fun cbs m => dictInsert cbs m.name false) acc)
        ↔ n ∈ keyset acc ∨ n ∈ l.map Monitor.name := by
    intro l
    induction l with
    | nil => simp
    | cons m t ih =>
      intro acc
      simp only [List.foldl_cons, List.map_cons, List.mem_cons]
      rw [ih, mem_keyset_dictInsert]
      tauto
  rw [key]
  simp [keyset]

theorem create_checkbox_false (s : QMSState) (scan : List Monitor) :
    ∀ p ∈ (create_monitor_checkboxes s scan).monitor_checkboxes, p.2 = false := by
  unfold create_monitor_checkboxes
  show ∀ p ∈ (scan.filter (fun m => m.field3 == "No")).foldl
      (fun cbs m => dictInsert cbs m.name false) [], p.2 = false
  have key : ∀ (l : List Monitor) (acc : List (String × Bool)),
      (∀ p ∈ acc, p.2 = false) →
      ∀ p ∈ l.foldl (fun cbs m => dictInsert cbs m.name false) acc, p.2 = false := by
    intro l
    induction l with
    | nil => intro acc hacc; exact hacc
    | cons m t ih =>
      intro acc hacc
      simp only [List.foldl_cons]
      refine ih _ ?_
      intro p hp
      unfold dictInsert at hp
      split at hp
      · rcases List.mem_map.mp hp with ⟨q, hq, hqp⟩
        subst hqp
        split
        · rfl
        · exact hacc q hq
      · rcases List.mem_append.mp hp with hq | hq
        · exact hacc p hq
        · simp only [List.mem_singleton] at hq
          subst hq
          rfl
  exact key _ [] (by intro p hp; cases hp)

theorem toggle_loop_mem (monitors : List Monitor) (enabled : Bool)
    (cbs : List (String × Bool)) :
    ∀ c ∈ (toggle_loop monitors enabled cbs).1,
      ∃ n, c = Cmd.toggle_monitors [n] (!enabled) := by
  induction cbs with
  | nil => intro c hc; cases hc
  | cons p t ih =>
    rcases p with ⟨name, checked⟩
    unfold toggle_loop
    cases checked with
    | false => exact ih
    | true =>
      simp only [if_true]
      cases hf : monitors.find? (fun mon => mon.name == name) with
      | none => intro c hc; cases hc
      | some mon =>
        intro c hc
        rcases List.mem_cons.mp hc with rfl | hc
        · exact ⟨mon.name, rfl⟩
        · exact ih c hc

theorem toggle_loop_unchecked (monitors : List Monitor) (enabled : Bool)
    (cbs : List (String × Bool)) (h : ∀ p ∈ cbs, p.2 = false) :
    toggle_loop monitors enabled cbs = ([], none) := by
  induction cbs with
  | nil => rfl
  | cons p t ih =>
    rcases p with ⟨name, checked⟩
    have hp : checked = false := h _ (List.mem_cons_self _ _)
    subst hp
    unfold toggle_loop
    exact ih (fun q hq => h q (List.mem_cons_of_mem _ hq))

theorem toggle_ok_state (s : QMSState) (rescan : List Monitor) (s1 : QMSState)
    (h : (toggle_secondary_monitors s rescan).2 = Except.ok s1) :
    s1 = (if s.no_ddcci then
            { s with secondary_monitors_enabled := !s.secondary_monitors_enabled }
          else create_monitor_checkboxes
            { s with secondary_monitors_enabled := !s.secondary_monitors_enabled }
            rescan) := by
  unfold toggle_secondary_monitors at h
  by_cases hnd : s.no_ddcci = true
  · simp only [hnd, Bool.not_true, Bool.false_eq_true, if_false, if_true,
      Except.ok.injEq] at h ⊢
    exact h.symm
  · simp only [Bool.not_eq_true] at hnd
    simp only [hnd, Bool.not_false, Bool.false_eq_true, if_true, if_false] at h ⊢
    cases hl : (toggle_loop s.monitors s.secondary_monitors_enabled
        s.monitor_checkboxes).2 with
    | some e => rw [hl] at h; cases h
    | none =>
      rw [hl] at h
      simp only [Except.ok.injEq] at h
      exact h.symm

theorem toggle_unchecked_run (s : QMSState) (rescan : List Monitor)
    (hnd : s.no_ddcci = false) (hcb : ∀ p ∈ s.monitor_checkboxes, p.2 = false) :
    toggle_secondary_monitors s rescan
      = ([Cmd.run_display_switch
            (if s.secondary_monitors_enabled then "/internal" else "/extend")],
         Except.ok (create_monitor_checkboxes
           { s with secondary_monitors_enabled := !s.secondary_monitors_enabled }
           rescan)) := by
  unfold toggle_secondary_monitors
  simp only [hnd, Bool.not_false, Bool.false_eq_true, if_true, if_false,
    toggle_loop_unchecked s.monitors s.secondary_monitors_enabled
      s.monitor_checkboxes hcb]
  cases he : s.secondary_monitors_enabled with
  | false => simp [he]
  | true => simp [he]

/-- C1.  In every invocation of `toggle_secondary_monitors`, the OS
display-switch calls bracket the per-monitor DDC/CI calls: starting
disabled, the emitted command stream is `run_display_switch("/extend")`
followed only by per-monitor enable commands; starting enabled, it is
per-monitor disable commands followed by at most a final
`run_display_switch("/internal")` (absent only if the loop raised, in
which case no display switch follows the disables either). -/
theorem C1_switch_brackets_ddcci (s : QMSState) (rescan : List Monitor) :
    (s.secondary_monitors_enabled = false →
      ∃ es, (toggle_secondary_monitors s rescan).1
          = Cmd.run_display_switch "/extend" :: es ∧
        ∀ c ∈ es, ∃ n, c = Cmd.toggle_monitors [n] true) ∧
    (s.secondary_monitors_enabled = true →
      ∃ ds post, (toggle_secondary_monitors s rescan).1 = ds ++ post ∧
        (∀ c ∈ ds, ∃ n, c = Cmd.toggle_monitors [n] false) ∧
        (post = [] ∨ post = [Cmd.run_display_switch "/internal"])) := by
  constructor
  · intro hs
    unfold toggle_secondary_monitors
    simp only [hs, Bool.not_false, Bool.false_eq_true, if_true, if_false]
    by_cases hnd : s.no_ddcci = true
    · simp only [hnd, Bool.not_true, Bool.false_eq_true, if_false]
      exact ⟨[], rfl, by intro c hc; cases hc⟩
    · simp only [Bool.not_eq_true] at hnd
      simp only [hnd, Bool.not_false, if_true]
      have hmem := toggle_loop_mem s.monitors false s.monitor_checkboxes
      simp only [Bool.not_false] at hmem
      cases hl : (toggle_loop s.monitors false s.monitor_checkboxes).2 with
      | some e =>
        refine ⟨(toggle_loop s.monitors false s.monitor_checkboxes).1, by simp, ?_⟩
        intro c hc
        exact hmem c hc
      | none =>
        refine ⟨(toggle_loop s.monitors false s.monitor_checkboxes).1, by simp, ?_⟩
        intro c hc
        exact hmem c hc
  · intro hs
    unfold toggle_secondary_monitors
    simp only [hs, Bool.not_true, Bool.false_eq_true, if_false, if_true]
    by_cases hnd : s.no_ddcci = true
    · simp only [hnd, Bool.not_true, Bool.false_eq_true, if_false]
      refine ⟨[], [Cmd.run_display_switch "/internal"], rfl, ?_, Or.inr rfl⟩
      intro c hc
      cases hc
    · simp only [Bool.not_eq_true] at hnd
      simp only [hnd, Bool.not_false, if_true]
      have hmem := toggle_loop_mem s.monitors true s.monitor_checkboxes
      simp only [Bool.not_true] at hmem
      cases hl : (toggle_loop s.monitors true s.monitor_checkboxes).2 with
      | some e =>
        refine ⟨(toggle_loop s.monitors true s.monitor_checkboxes).1, [], by simp, ?_,
          Or.inl rfl⟩
        intro c hc
        exact hmem c hc
      | none =>
        refine ⟨(toggle_loop s.monitors true s.monitor_checkboxes).1,
          [Cmd.run_display_switch "/internal"], by simp, ?_, Or.inr rfl⟩
        intro c hc
        exact hmem c hc

/-- Witness for C1 at a concrete state: one checked monitor `A`,
secondary monitors currently disabled. -/
theorem C1_witness :
    ∃ es, (toggle_secondary_monitors
        ⟨false, [mA], [("A", true)], Json.obj [], false, false⟩ [mA]).1
      = Cmd.run_display_switch "/extend" :: es ∧
      ∀ c ∈ es, ∃ n, c = Cmd.toggle_monitors [n] true :=
  (C1_switch_brackets_ddcci
    ⟨false, [mA], [("A", true)], Json.obj [], false, false⟩ [mA]).1 rfl
theorem applyCmds_append (d : DisplayState) (l1 l2 : List Cmd) :
    applyCmds d (l1 ++ l2) = applyCmds (applyCmds d l1) l2 := by
  simp [applyCmds, List.foldl_append]

/-- Counterexample to C2: starting from `c2S` (one selected monitor,
secondary disabled), two consecutive toggles do NOT restore the
per-monitor condition.  The first toggle enables `A` and then rebuilds
the checkbox list unchecked, so the second toggle issues no disable for
`A`; the net effect of the two command streams leaves `A` powered on,
different from the initial display condition. -/
theorem C2_counterexample :
    (toggle_secondary_monitors c2S [mA]).2 = Except.ok c2S1 ∧
    (applyCmds c2D0 ((toggle_secondary_monitors c2S [mA]).1
        ++ (toggle_secondary_monitors c2S1 [mA]).1)).power = [("A", true)] ∧
    applyCmds c2D0 ((toggle_secondary_monitors c2S [mA]).1
        ++ (toggle_secondary_monitors c2S1 [mA]).1) ≠ c2D0 :=
  ⟨rfl, by decide, by decide⟩

/-- C2 as amended: each successful toggle flips the flag exactly once,
and after the post-toggle checkbox rebuild the second toggle issues
exactly one display-switch command and no per-monitor command, so two
consecutive toggles restore the flag and the display-switch mode — but
not, in general, the per-monitor power states. -/
theorem C2_amended_flip_and_mode (s : QMSState) (rescan : List Monitor)
    (d : DisplayState) (s1 : QMSState) (hnd : s.no_ddcci = false)
    (h1 : (toggle_secondary_monitors s rescan).2 = Except.ok s1)
    (hd : d.mode = switchModeFor s.secondary_monitors_enabled) :
    s1.secondary_monitors_enabled = (!s.secondary_monitors_enabled) ∧
    (toggle_secondary_monitors s1 rescan).1
      = [Cmd.run_display_switch (switchModeFor s.secondary_monitors_enabled)] ∧
    (∀ s2, (toggle_secondary_monitors s1 rescan).2 = Except.ok s2 →
      s2.secondary_monitors_enabled = s.secondary_monitors_enabled) ∧
    (applyCmds d ((toggle_secondary_monitors s rescan).1
        ++ (toggle_secondary_monitors s1 rescan).1)).mode = d.mode := by
  have hs1 := toggle_ok_state s rescan s1 h1
  rw [hnd] at hs1
  simp only [Bool.false_eq_true, if_false] at hs1
  have hnd1 : s1.no_ddcci = false := by rw [hs1]; rfl
  have henab : s1.secondary_monitors_enabled = !s.secondary_monitors_enabled := by
    rw [hs1]
    rfl
  have hcb : ∀ p ∈ s1.monitor_checkboxes, p.2 = false := by
    rw [hs1]
    exact create_checkbox_false _ _
  have h2 := toggle_unchecked_run s1 rescan hnd1 hcb
  have h2a : (toggle_secondary_monitors s1 rescan).1
      = [Cmd.run_display_switch
          (if s1.secondary_monitors_enabled then "/internal" else "/extend")] := by
    rw [h2]
  have h2b : (toggle_secondary_monitors s1 rescan).2
      = Except.ok (create_monitor_checkboxes
          { s1 with secondary_monitors_enabled := !s1.secondary_monitors_enabled }
          rescan) := by
    rw [h2]
  refine ⟨henab, ?_, ?_, ?_⟩
  · rw [h2a, henab]
    cases he : s.secondary_monitors_enabled <;> simp [he, switchModeFor]
  · intro s2 hok
    rw [h2b] at hok
    simp only [Except.ok.injEq] at hok
    subst hok
    show (!s1.secondary_monitors_enabled) = s.secondary_monitors_enabled
    rw [henab, Bool.not_not]
  · rw [h2a, henab, applyCmds_append]
    cases he : s.secondary_monitors_enabled <;>
      simp [he, applyCmds, applyCmd, switchModeFor, hd]

/-- Witness for `C2_amended_flip_and_mode` at the concrete input of the
counterexample. -/
theorem C2_amended_witness :
    c2S1.secondary_monitors_enabled = (!c2S.secondary_monitors_enabled) ∧
    (toggle_secondary_monitors c2S1 [mA]).1
      = [Cmd.run_display_switch (switchModeFor c2S.secondary_monitors_enabled)] ∧
    (∀ s2, (toggle_secondary_monitors c2S1 [mA]).2 = Except.ok s2 →
      s2.secondary_monitors_enabled = c2S.secondary_monitors_enabled) ∧
    (applyCmds c2D0 ((toggle_secondary_monitors c2S [mA]).1
        ++ (toggle_secondary_monitors c2S1 [mA]).1)).mode = c2D0.mode :=
  C2_amended_flip_and_mode c2S [mA] c2D0 c2S1 rfl rfl rfl

/-- Counterexample to C7: after a toggle, `secondary_monitors_enabled`
is merely the negation of its previous value; with the registry still
reporting monitor `A` active, it differs from what `get_active_monitors`
computes from the current monitor list. -/
theorem C7_counterexample :
    (toggle_secondary_monitors c7S [mA]).2 = Except.ok c7S1 ∧
    get_active_monitors c7S1.monitors = true ∧
    c7S1.secondary_monitors_enabled = false ∧
    c7S1.secondary_monitors_enabled ≠ get_active_monitors c7S1.monitors :=
  ⟨rfl, by decide, rfl, by decide⟩

/-- C7 as amended: the flag is computed from `get_active_monitors` once
in the constructor; a toggle then sets it to the negation of its
previous value and a checkbox rebuild leaves it untouched — it is never
recomputed from the registry afterwards. -/
theorem C7_amended_flag_lifecycle :
    (∀ s rescan s1, (toggle_secondary_monitors s rescan).2 = Except.ok s1 →
      s1.secondary_monitors_enabled = (!s.secondary_monitors_enabled)) ∧
    (∀ s scan, (create_monitor_checkboxes s scan).secondary_monitors_enabled
      = s.secondary_monitors_enabled) ∧
    (∀ nd scan file p, QMS_init nd scan file = Except.ok p →
      p.1.secondary_monitors_enabled = get_active_monitors scan ∧
      p.1.monitors = scan) := by
  refine ⟨?_, fun s scan => rfl, ?_⟩
  · intro s rescan s1 h
    rw [toggle_ok_state s rescan s1 h]
    split <;> rfl
  · intro nd scan file p h
    unfold QMS_init at h
    by_cases hnd : nd = true
    · simp only [hnd, if_true] at h
      have hp := load_settings_pres _ _ _ h
      exact ⟨hp.2.2.1, hp.2.1⟩
    · simp only [Bool.not_eq_true] at hnd
      simp only [hnd, Bool.false_eq_true, if_false] at h
      have hp := load_settings_pres _ _ _ h
      refine ⟨hp.2.2.1.trans ?_, hp.2.1⟩
      rfl

/-- Witness for `C7_amended_flag_lifecycle`: the toggle clause at the
counterexample state, and the constructor clause at a first run. -/
theorem C7_amended_witness :
    c7S1.secondary_monitors_enabled = (!c7S.secondary_monitors_enabled) ∧
    ((⟨false, [mA], [("A", false)], Json.obj [], true, true⟩ :
        QMSState).secondary_monitors_enabled = get_active_monitors [mA] ∧
      (⟨false, [mA], [("A", false)], Json.obj [], true, true⟩ :
        QMSState).monitors = [mA]) :=
  ⟨C7_amended_flag_lifecycle.1 c7S [mA] c7S1 rfl,
    C7_amended_flag_lifecycle.2.2 false [mA] none
      (⟨false, [mA], [("A", false)], Json.obj [], true, true⟩, none) rfl⟩
/-- C5 divergence theorem: with a settings file present but not valid
JSON, the `json.load` in `load_settings` raises `JSONDecodeError`; no
handler catches it (the `try` covers only `AttributeError`), so the
exception escapes `QMS.__init__` and the application startup crashes,
for either value of `--no-ddcci` and any monitor scan. -/
theorem C5_malformed_settings_crash (nd : Bool) (scan : List Monitor) :
    QMS_init nd scan (some FileContent.malformed)
      = Except.error PyErr.jsonDecodeError := by
  cases nd <;> rfl

/-- Counterexample to the C6 clause that the main window starts hidden: with the
settings file absent, `first_run` is set, and `__main__` therefore
calls `window.show()` — the window starts shown, not hidden. -/
theorem C6_counterexample :
    main_window_shown false [mA] none = Except.ok true ∧
    main_window_shown false [mA] none ≠ Except.ok false :=
  ⟨rfl, fun h => Bool.noConfusion (Except.ok.inj h)⟩

/-- C6 as amended: with the settings file absent, startup succeeds
(no crash), `load_settings` signals first run via `first_run = true`,
and the main window starts shown (because of `first_run`), for any
scan and either `--no-ddcci` setting. -/
theorem C6_amended_first_run_shown (nd : Bool) (scan : List Monitor) :
    ∃ p, QMS_init nd scan none = Except.ok p ∧ p.1.first_run = true ∧
      main_window_shown nd scan none = Except.ok true := by
  cases nd <;> exact ⟨_, rfl, rfl, rfl⟩

/-- Counterexample to C8: pressing rescan (with the scan still
reporting `A`, a surviving name) rebuilds the checkbox list with `A`
unchecked — the stored selection is not re-applied, so the surviving
name does not keep its checked state. -/
theorem C8_counterexample :
    lookupCheckbox c8S.monitor_checkboxes "A" = some true ∧
    (step (c8S, some (FileContent.json c8S.settings))
        (UiEvent.rescanClick [mA])).1.monitor_checkboxes = [("A", false)] ∧
    lookupCheckbox (step (c8S, some (FileContent.json c8S.settings))
        (UiEvent.rescanClick [mA])).1.monitor_checkboxes "A" ≠ some true :=
  ⟨rfl, by decide, by decide⟩

/-- C8 as amended: a rescan click discards the checkbox list and
rebuilds it from the fresh scan — one unchecked checkbox per eligible
monitor name — without re-applying stored selections; the settings file
is left untouched by the rescan itself. -/
theorem C8_amended_rescan_resets (s : QMSState) (f : Option FileContent)
    (scan : List Monitor) :
    (step (s, f) (UiEvent.rescanClick scan)).1 = create_monitor_checkboxes s scan ∧
    (step (s, f) (UiEvent.rescanClick scan)).2 = f ∧
    (create_monitor_checkboxes s scan).monitors = scan ∧
    (∀ p ∈ (create_monitor_checkboxes s scan).monitor_checkboxes, p.2 = false) ∧
    (∀ n, n ∈ keyset (create_monitor_checkboxes s scan).monitor_checkboxes
      ↔ n ∈ eligibleNames scan) :=
  ⟨rfl, rfl, rfl, create_checkbox_false s scan, fun n => mem_keyset_create s scan n⟩

/-- Witness for `C8_amended_rescan_resets` at the counterexample
state. -/
theorem C8_amended_witness :
    (∀ p ∈ (create_monitor_checkboxes c8S [mA]).monitor_checkboxes, p.2 = false) ∧
    ("A" ∈ keyset (create_monitor_checkboxes c8S [mA]).monitor_checkboxes
      ↔ "A" ∈ eligibleNames [mA]) :=
  ⟨(C8_amended_rescan_resets c8S none [mA]).2.2.2.1,
    (C8_amended_rescan_resets c8S none [mA]).2.2.2.2 "A"⟩

/-- C9.  A click on an existing checkbox flips that checkbox and — via
the `stateChanged` connection to `save_settings` — immediately rewrites
the settings file to hold exactly the now-current full selection. -/
theorem C9_autosave_on_change (s : QMSState) (file : Option FileContent)
    (k : String) (b0 : Bool)
    (h : lookupCheckbox s.monitor_checkboxes k = some b0) :
    (step (s, file) (UiEvent.click k)).1.monitor_checkboxes
      = setCheckedValue s.monitor_checkboxes k (!b0) ∧
    (step (s, file) (UiEvent.click k)).2
      = some (FileContent.json (settingsDoc
          ((step (s, file) (UiEvent.click k)).1.monitor_checkboxes))) := by
  have hb : (b0 == !b0) = false := by cases b0 <;> rfl
  simp only [step, checkbox_setChecked, h, hb, Bool.false_eq_true, if_false,
    save_settings]
  exact ⟨trivial, trivial⟩

/-- Witness for `C9_autosave_on_change`, including the concrete
scenario of the claim: checking `Monitor1` with nothing else checked
leaves the file holding exactly the one-key document
`secondary_monitors = ["Monitor1"]`. -/
theorem C9_witness :
    ((step (c9S, none) (UiEvent.click "Monitor1")).1.monitor_checkboxes
      = setCheckedValue c9S.monitor_checkboxes "Monitor1" (!false) ∧
     (step (c9S, none) (UiEvent.click "Monitor1")).2
      = some (FileContent.json (settingsDoc
          ((step (c9S, none) (UiEvent.click "Monitor1")).1.monitor_checkboxes)))) ∧
    (step (c9S, none) (UiEvent.click "Monitor1")).2
      = some (FileContent.json (Json.obj
          [("secondary_monitors", Json.arr [Json.str "Monitor1"])])) :=
  ⟨C9_autosave_on_change c9S none "Monitor1" false rfl, rfl⟩

/-- C10.  Whatever the settings file held before — extra top-level keys
included — a checkbox change rewrites it to an object whose only
top-level key is `secondary_monitors`. -/
theorem C10_save_replaces_whole_document (s : QMSState) (file : Option FileContent)
    (k : String) (b0 : Bool)
    (h : lookupCheckbox s.monitor_checkboxes k = some b0) :
    ∃ l, (step (s, file) (UiEvent.click k)).2
      = some (FileContent.json (Json.obj [("secondary_monitors", l)])) := by
  have hb : (b0 == !b0) = false := by cases b0 <;> rfl
  simp only [step, checkbox_setChecked, h, hb, Bool.false_eq_true, if_false,
    save_settings]
  exact ⟨_, rfl⟩

/-- Witness for `C10_save_replaces_whole_document`: starting from a
file that carries the extra key `theme`, one checkbox change leaves a
single-key document, so `theme` is gone. -/
theorem C10_witness :
    ∃ l, (step (c9S, c10File) (UiEvent.click "Monitor1")).2
      = some (FileContent.json (Json.obj [("secondary_monitors", l)])) :=
  C10_save_replaces_whole_document c9S c10File "Monitor1" false rfl

theorem checkedNames_subset_keyset (cbs : List (String × Bool)) :
    ∀ n ∈ checkedNames cbs, n ∈ keyset cbs := by
  intro n hn
  rcases List.mem_map.mp hn with ⟨p, hp, rfl⟩
  exact List.mem_map_of_mem Prod.fst (List.mem_of_mem_filter hp)

theorem secondaryNamesOf_settingsDoc (cbs : List (String × Bool)) :
    secondaryNamesOf (settingsDoc cbs) = checkedNames cbs := by
  show ((cbs.filter (fun p => p.2)).map (fun p => Json.str p.1)).filterMap
      (fun j => match j with | Json.str t => some t | _ => none)
    = checkedNames cbs
  rw [List.filterMap_map]
  show (cbs.filter (fun p => p.2)).filterMap (fun p => some p.1) = _
  rw [show (fun p : String × Bool => some p.1)
      = some ∘ (fun p : String × Bool => p.1) from rfl,
    List.filterMap_eq_map]
  rfl

theorem step_preserves_selectionInv (p : QMSState × Option FileContent)
    (ev : UiEvent) (h : selectionInv p.1) : selectionInv (step p ev).1 := by
  cases ev with
  | click k =>
    show selectionInv (match lookupCheckbox p.1.monitor_checkboxes k with
      | none => p
      | some b0 => checkbox_setChecked p.1 p.2 k (!b0)).1
    cases hl : lookupCheckbox p.1.monitor_checkboxes k with
    | none => exact h
    | some b0 =>
      have hp := checkbox_setChecked_pres p.1 p.2 k (!b0)
      intro n hn
      rw [hp.2.2.2.2] at hn
      rw [show (checkbox_setChecked p.1 p.2 k (!b0)).1.monitors = p.1.monitors
        from hp.2.1]
      exact h n hn
  | rescanClick scan =>
    intro n hn
    have := (mem_keyset_create p.1 scan n).mp hn
    simpa [create_monitor_checkboxes, eligibleNames] using this

theorem run_preserves_selectionInv (evs : List UiEvent)
    (p : QMSState × Option FileContent) (h : selectionInv p.1) :
    selectionInv (run p evs).1 := by
  induction evs generalizing p with
  | nil => exact h
  | cons ev rest ih =>
    exact ih (step p ev) (step_preserves_selectionInv p ev h)

theorem init_selectionInv (scan : List Monitor) (file : Option FileContent)
    (p : QMSState × Option FileContent)
    (h : QMS_init false scan file = Except.ok p) : selectionInv p.1 := by
  unfold QMS_init at h
  simp only [Bool.false_eq_true, if_false] at h
  have hp := load_settings_pres _ _ _ h
  intro n hn
  rw [hp.2.2.2] at hn
  rw [hp.2.1]
  show n ∈ eligibleNames scan
  exact (mem_keyset_create
    (⟨false, scan, [], Json.obj [], false, false⟩ : QMSState) scan n).mp hn

/-- Counterexample to the at-all-times reading of C3: check `A` (the file
becomes `["A"]`), then rescan to a registry now reporting only `B`.
The rescan does not rewrite the file, so the persisted set still holds
`A`, which is not among the eligible names of the most recent scan. -/
theorem C3_counterexample :
    QMS_init false [mA] none = Except.ok (c3S0, none) ∧
    persistedNames (run (c3S0, none)
      [UiEvent.click "A", UiEvent.rescanClick [mB]]).2 = ["A"] ∧
    eligibleNames (run (c3S0, none)
      [UiEvent.click "A", UiEvent.rescanClick [mB]]).1.monitors = ["B"] ∧
    "A" ∉ eligibleNames (run (c3S0, none)
      [UiEvent.click "A", UiEvent.rescanClick [mB]]).1.monitors :=
  ⟨rfl, by decide, by decide, by decide⟩

/-- C3 as amended: in every state reachable from startup by checkbox
clicks and rescans, the checked names — exactly the names
`save_settings` writes, as the second conjunct records — all belong to
the eligible names of the scan that most recently rebuilt the checkbox
list (the current monitor list).  So every write satisfies the subset
at the moment it is performed; only file content left over from before
a rescan may mention older names. -/
theorem C3_amended_saves_within_scan (scan : List Monitor)
    (file : Option FileContent) (p : QMSState × Option FileContent)
    (h : QMS_init false scan file = Except.ok p) (evs : List UiEvent) :
    (∀ n ∈ checkedNames (run p evs).1.monitor_checkboxes,
      n ∈ eligibleNames (run p evs).1.monitors) ∧
    secondaryNamesOf (settingsDoc (run p evs).1.monitor_checkboxes)
      = checkedNames (run p evs).1.monitor_checkboxes := by
  constructor
  · intro n hn
    exact run_preserves_selectionInv evs p (init_selectionInv scan file p h) n
      (checkedNames_subset_keyset _ n hn)
  · exact secondaryNamesOf_settingsDoc _

/-- Witness for `C3_amended_saves_within_scan` on the concrete
counterexample trace: even there, the checked names always sit inside
the eligible names of the current scan at the moment of each write. -/
theorem C3_amended_witness :
    (∀ n ∈ checkedNames (run (c3S0, none)
        [UiEvent.click "A", UiEvent.rescanClick [mB]]).1.monitor_checkboxes,
      n ∈ eligibleNames (run (c3S0, none)
        [UiEvent.click "A", UiEvent.rescanClick [mB]]).1.monitors) ∧
    secondaryNamesOf (settingsDoc (run (c3S0, none)
        [UiEvent.click "A", UiEvent.rescanClick [mB]]).1.monitor_checkboxes)
      = checkedNames (run (c3S0, none)
        [UiEvent.click "A", UiEvent.rescanClick [mB]]).1.monitor_checkboxes :=
  C3_amended_saves_within_scan [mA] none (c3S0, none) rfl
    [UiEvent.click "A", UiEvent.rescanClick [mB]]
theorem lookup_of_mem_keyset (cbs : List (String × Bool)) (k : String)
    (h : k ∈ keyset cbs) : ∃ b, lookupCheckbox cbs k = some b := by
  induction cbs with
  | nil => cases h
  | cons p t ih =>
    by_cases hk : (p.1 == k) = true
    · exact ⟨p.2, by simp [lookupCheckbox, List.find?, hk]⟩
    · have hmem : k ∈ keyset t := by
        rcases List.mem_cons.mp h with h1 | h1
        · exact absurd (beq_iff_eq.mpr h1.symm) (by simpa using hk)
        · exact h1
      rcases ih hmem with ⟨b, hb⟩
      exact ⟨b, by simpa [lookupCheckbox, List.find?, hk] using hb⟩

theorem any_map_jsonEqStr (l : List (String × Bool)) (k : String) :
    ((l.map (fun p => Json.str p.1)).any (fun j => jsonEqStr j k))
      = l.any (fun p => p.1 == k) := by
  induction l with
  | nil => rfl
  | cons p t ih =>
    simp only [List.map_cons, List.any_cons, ih]
    rfl

theorem checked_any_eq_lookup (cbs : List (String × Bool)) (k : String)
    (b0 : Bool) (hnd : (keyset cbs).Nodup)
    (h : lookupCheckbox cbs k = some b0) :
    (cbs.filter (fun p => p.2)).any (fun p => p.1 == k) = b0 := by
  induction cbs with
  | nil => cases h
  | cons p t ih =>
    have hnd1 : (keyset t).Nodup := (List.nodup_cons.mp hnd).2
    have hnotin : p.1 ∉ keyset t := (List.nodup_cons.mp hnd).1
    by_cases hk : (p.1 == k) = true
    · have hpk : p.1 = k := beq_iff_eq.mp hk
      have hb0 : b0 = p.2 := by
        simp [lookupCheckbox, List.find?, hk] at h
        exact h.symm
      subst hb0
      cases hp2 : p.2 with
      | true =>
        have : p ∈ (p :: t).filter (fun q => q.2) := by
          simp [List.filter_cons, hp2]
        simp only [List.any_eq_true]
        exact ⟨p, this, hk⟩
      | false =>
        simp only [List.filter, hp2]
        rw [Bool.eq_false_iff]
        intro hany
        rcases List.any_eq_true.mp hany with ⟨q, hq, hqk⟩
        have hq1 : q.1 = k := beq_iff_eq.mp hqk
        have : q.1 ∈ keyset t :=
          List.mem_map_of_mem Prod.fst (List.mem_of_mem_filter hq)
        rw [hq1, ← hpk] at this
        exact hnotin this
    · have hrest : lookupCheckbox t k = some b0 := by
        simpa [lookupCheckbox, List.find?, hk] using h
      have := ih hnd1 hrest
      cases hp2 : p.2 with
      | true => simpa [List.filter, hp2, List.any_cons, hk] using this
      | false => simpa [List.filter, hp2] using this

theorem setChecked_noop (s : QMSState) (file : Option FileContent) (k : String)
    (b0 : Bool) (h : lookupCheckbox s.monitor_checkboxes k = some b0) :
    checkbox_setChecked s file k b0 = (s, file) := by
  unfold checkbox_setChecked
  rw [h]
  simp

theorem apply_settings_loop_fixpoint (ks : List String) (s : QMSState)
    (file : Option FileContent)
    (hks : ∀ k ∈ ks, k ∈ keyset s.monitor_checkboxes)
    (hnd : (keyset s.monitor_checkboxes).Nodup)
    (hset : s.settings = settingsDoc s.monitor_checkboxes) :
    apply_settings_loop s file ks = (s, file) := by
  induction ks with
  | nil => rfl
  | cons k rest ih =>
    unfold apply_settings_loop
    rw [hset]
    have hd : dictGet (settingsDoc s.monitor_checkboxes) "secondary_monitors"
        (Json.arr [])
      = Except.ok (Json.arr ((s.monitor_checkboxes.filter (fun p => p.2)).map
          (fun p => Json.str p.1))) := rfl
    rw [hd]
    rcases lookup_of_mem_keyset s.monitor_checkboxes k
      (hks k (List.mem_cons_self k rest)) with ⟨b0, hb0⟩
    have hpy : pyIn k (Json.arr ((s.monitor_checkboxes.filter (fun p => p.2)).map
        (fun p => Json.str p.1))) = b0 := by
      show ((s.monitor_checkboxes.filter (fun p => p.2)).map
          (fun p => Json.str p.1)).any (fun j => jsonEqStr j k) = b0
      rw [any_map_jsonEqStr]
      exact checked_any_eq_lookup s.monitor_checkboxes k b0 hnd hb0
    show (apply_settings_loop (checkbox_setChecked s file k (pyIn k _)).1
      (checkbox_setChecked s file k (pyIn k _)).2 rest) = (s, file)
    rw [hpy, setChecked_noop s file k b0 hb0]
    exact ih (fun q hq => hks q (List.mem_cons_of_mem k hq))

/-- C4.  Round trip: saving the current selection and then loading the
file back leaves the object state and the file exactly as the save left
them; in particular (second conjunct) the post-save checkbox selection
is the pre-save one, so `save(s); load()` yields `s` again.  Requires
the checkbox dict keys to be distinct, which a Python dict guarantees
by construction. -/
theorem C4_save_load_round_trip (s : QMSState)
    (hnd : (keyset s.monitor_checkboxes).Nodup) :
    load_settings (save_settings s).1 (some (save_settings s).2)
      = Except.ok ((save_settings s).1, some (save_settings s).2) ∧
    (save_settings s).1.monitor_checkboxes = s.monitor_checkboxes := by
  refine ⟨?_, rfl⟩
  exact congrArg Except.ok (apply_settings_loop_fixpoint
    (((save_settings s).1.monitor_checkboxes).map Prod.fst)
    { (save_settings s).1 with settings := settingsDoc s.monitor_checkboxes }
    (some (save_settings s).2) (fun k hk => hk) hnd rfl)

/-- Witness for `C4_save_load_round_trip` at a concrete state with two
checkboxes, one checked. -/
theorem C4_witness :
    load_settings (save_settings c2S).1 (some (save_settings c2S).2)
      = Except.ok ((save_settings c2S).1, some (save_settings c2S).2) ∧
    (save_settings c2S).1.monitor_checkboxes = c2S.monitor_checkboxes :=
  C4_save_load_round_trip c2S (by decide)
end QMSpy
